import Mathlib

/-!
Shallow embedding of the trevatk/log leveled-logging package.

The repository holds two renderings of the same logger surface:
- a structured (JSON) rendering in log.go, embedded in namespace Structured;
- a plain-text colorized rendering (the unnamed source file), embedded in
  namespace Plain.

Both share the Level enumeration, the color table, levelFromString and the
printf-style argument model.  Nondeterministic inputs of the real code
(time.Now, debug.Stack, the sink's write error) are passed as explicit
parameters; a call's observable behaviour is captured as the list of byte
strings handed to the sink's Write, plus a flag recording whether os.Exit(1)
was invoked.
-/

/-- Go source: type Level int.  Levels are the integers DEBUG=0 .. FATAL=4. -/
abbrev Level := Int

/-- Go source: DEBUG Level = iota. -/
def DEBUG : Level := 0
/-- Go source: INFO. -/
def INFO : Level := 1
/-- Go source: WARN. -/
def WARN : Level := 2
/-- Go source: ERROR. -/
def ERROR : Level := 3
/-- Go source: FATAL. -/
def FATAL : Level := 4

/-- Go source: type color string. -/
abbrev color := String

/-- Go source: colorReset color = escape 0m. -/
def colorReset : color := "\x1b[0m"
/-- Go source: colorRed. -/
def colorRed : color := "\x1b[31m"
/-- Go source: colorGreen. -/
def colorGreen : color := "\x1b[32m"
/-- Go source: colorYellow. -/
def colorYellow : color := "\x1b[33m"
/-- Go source: colorBlue. -/
def colorBlue : color := "\x1b[34m"
/-- Go source: colorPurple. -/
def colorPurple : color := "\x1b[35m"
/-- Go source: colorCyan. -/
def colorCyan : color := "\x1b[36m"
/-- Go source: colorWhite. -/
def colorWhite : color := "\x1b[37m"

/-- Go source: func (lvl Level) string() string.  A switch on the level with
default branch DEBUG. -/
def Level.string (lvl : Level) : String :=
  if lvl = INFO then "INFO"
  else if lvl = WARN then "WARN"
  else if lvl = ERROR then "ERROR"
  else if lvl = FATAL then "FATAL"
  else "DEBUG"

/-- Modelled from Go strings.ToLower, restricted to per-character (ASCII)
lowercasing, which is exact on the inputs the package compares against. -/
def goToLower (s : String) : String :=
  ⟨s.data.map Char.toLower⟩

/-- Go source: func levelFromString(lvl string) Level.  A switch on
strings.ToLower(lvl) with default branch DEBUG. -/
def levelFromString (lvl : String) : Level :=
  if goToLower lvl = "info" then INFO
  else if goToLower lvl = "warn" then WARN
  else if goToLower lvl = "error" then ERROR
  else if goToLower lvl = "fatal" then FATAL
  else DEBUG

/-- Go source: func colorFromLevel(level Level) color. -/
def colorFromLevel (level : Level) : color :=
  if level = DEBUG then colorCyan
  else if level = INFO then colorGreen
  else if level = WARN then colorYellow
  else if level = ERROR then colorRed
  else if level = FATAL then colorPurple
  else colorReset

/-- Model of a Go interface value passed as a variadic any argument.
The chan constructor stands for the Go values (channels, functions, ...)
that encoding/json cannot serialize. -/
inductive JValue where
  | str (s : String)
  | int (n : Int)
  | bool (b : Bool)
  | null
  | chan (id : Nat)
deriving DecidableEq, Repr

/-- True exactly when encoding/json can serialize the value. -/
def JValue.serializable : JValue → Bool
  | .chan _ => false
  | _ => true

/-- Modelled from Go fmt: rendering of one verb applied to one argument
(restricted to the verbs and value shapes this package can meet). -/
def verbRender (c : Char) (v : JValue) : String :=
  if c = 's' then
    match v with
    | .str s => s
    | .int n => "%!s(int=" ++ toString n ++ ")"
    | .bool b => "%!s(bool=" ++ (if b then "true" else "false") ++ ")"
    | .null => "<nil>"
    | .chan _ => "%!s(chan)"
  else if c = 'd' then
    match v with
    | .int n => toString n
    | .str s => "%!d(string=" ++ s ++ ")"
    | .bool b => "%!d(bool=" ++ (if b then "true" else "false") ++ ")"
    | .null => "<nil>"
    | .chan _ => "%!d(chan)"
  else if c = 'v' then
    match v with
    | .str s => s
    | .int n => toString n
    | .bool b => if b then "true" else "false"
    | .null => "<nil>"
    | .chan _ => "chan"
  else
    "%!" ++ String.singleton c ++ "(BADVERB)"

/-- Modelled from Go fmt.Sprintf scanning: literal characters are copied,
a doubled percent emits a percent, a verb consumes the next argument,
a verb with no argument left reports MISSING, leftover arguments report
EXTRA. -/
def sprintfAux : List Char → List JValue → String
  | [], [] => ""
  | [], _ :: _ => "%!(EXTRA)"
  | '%' :: '%' :: rest, args => "%" ++ sprintfAux rest args
  | '%' :: c :: rest, a :: args => verbRender c a ++ sprintfAux rest args
  | '%' :: c :: rest, [] => "%!" ++ String.singleton c ++ "(MISSING)" ++ sprintfAux rest []
  | ['%'], args => "%!(NOVERB)" ++ sprintfAux [] args
  | c :: rest, args => String.singleton c ++ sprintfAux rest args

/-- Modelled from Go fmt.Sprintf. -/
def sprintf (format : String) (args : List JValue) : String :=
  sprintfAux format.data args

/-- Modelled from encoding/json string escaping (the characters that can
occur in this development). -/
def escapeChar (c : Char) : String :=
  if c = '"' then "\\\""
  else if c = '\\' then "\\\\"
  else if c = '\n' then "\\n"
  else if c = '\t' then "\\t"
  else if c = '\r' then "\\r"
  else String.singleton c

/-- Escape every character of a string for JSON output. -/
def escapeJson (s : String) : String :=
  String.join (s.data.map escapeChar)

/-- Modelled from encoding/json: a JSON string literal. -/
def jsonQuote (s : String) : String :=
  "\"" ++ escapeJson s ++ "\""

/-- Modelled from encoding/json: rendering of one serializable value. -/
def renderJValue : JValue → String
  | .str s => jsonQuote s
  | .int n => toString n
  | .bool b => if b then "true" else "false"
  | .null => "null"
  | .chan _ => ""

/-- Modelled from encoding/json: a JSON array of the field values. -/
def renderFieldsArr (vs : List JValue) : String :=
  "[" ++ String.intercalate "," (vs.map renderJValue) ++ "]"

/-- Go source: the entry struct of log.go with its json tags:
name,omitempty; level; caller,omitempty; msg,omitempty; fields,omitempty;
stacktrace,omitempty; timestamp. -/
structure entry where
  Name : String
  Level : String
  Caller : String
  Message : String
  Fields : List JValue
  Stacktrace : String
  Timestamp : String
deriving DecidableEq, Repr

/-- Modelled from encoding/json applied to the entry struct: the key/value
pairs that appear in the marshalled object, in struct-field order, honouring
each omitempty tag (level and timestamp carry no omitempty). -/
def entryKVs (e : entry) : List (String × String) :=
  (if e.Name = "" then [] else [("name", jsonQuote e.Name)]) ++
  [("level", jsonQuote e.Level)] ++
  (if e.Caller = "" then [] else [("caller", jsonQuote e.Caller)]) ++
  (if e.Message = "" then [] else [("msg", jsonQuote e.Message)]) ++
  (if e.Fields.isEmpty then [] else [("fields", renderFieldsArr e.Fields)]) ++
  (if e.Stacktrace = "" then [] else [("stacktrace", jsonQuote e.Stacktrace)]) ++
  [("timestamp", jsonQuote e.Timestamp)]

/-- Modelled from encoding/json: a JSON object from key/value pairs. -/
def renderObj (kvs : List (String × String)) : String :=
  "\x7b" ++ String.intercalate "," (kvs.map (fun kv => jsonQuote kv.1 ++ ":" ++ kv.2)) ++ "\x7d"

/-- Modelled from encoding/json.Marshal on an entry value: fails exactly when
some variadic field value has no JSON encoding, otherwise produces the
object. -/
def jsonMarshal (e : entry) : Except String String :=
  if e.Fields.all JValue.serializable then .ok (renderObj (entryKVs e))
  else .error "json: unsupported type"

/-- Model of an io.Writer identity (the plain rendering compares the sink
against os.Stdout and os.Stdin). -/
inductive GoWriter where
  | stdout
  | stdin
  | sink (id : Nat)
deriving DecidableEq, Repr

/-- Observable outcome of one emission call: the byte strings handed to the
sink's Write calls, in order, and whether os.Exit(1) was reached. -/
structure LogResult where
  writes : List String
  exits : Bool
deriving DecidableEq, Repr

/-- Go source: the diagnostic Fprintf issued when the Write call fails;
werr carries the write error text when the sink's Write returns an error. -/
def writeDiag : Option String → List String
  | none => []
  | some msg => ["failed to write to out: " ++ msg]

/-- One of the ten public emission methods together with its call payload. -/
inductive EmitCall where
  | debug (format : String)
  | debugf (format : String) (args : List JValue)
  | info (format : String)
  | infof (format : String) (args : List JValue)
  | warn (format : String)
  | warnf (format : String) (args : List JValue)
  | error (format : String)
  | errorf (format : String) (args : List JValue)
  | fatal (format : String)
  | fatalf (format : String) (args : List JValue)
deriving DecidableEq, Repr

/-- The level at which the method emits. -/
def EmitCall.level : EmitCall → Level
  | .debug _ | .debugf _ _ => DEBUG
  | .info _ | .infof _ _ => INFO
  | .warn _ | .warnf _ _ => WARN
  | .error _ | .errorf _ _ => ERROR
  | .fatal _ | .fatalf _ _ => FATAL

/-- The format string the method hands to logMsg: the plain methods pass the
literal verb string, the f methods pass their template. -/
def EmitCall.goFormat : EmitCall → String
  | .debug _ | .info _ | .warn _ | .error _ | .fatal _ => "%s"
  | .debugf f _ | .infof f _ | .warnf f _ | .errorf f _ | .fatalf f _ => f

/-- The variadic argument list the method hands to logMsg: the plain methods
pass their single message as the argument, the f methods pass their list. -/
def EmitCall.args : EmitCall → List JValue
  | .debug f | .info f | .warn f | .error f | .fatal f => [.str f]
  | .debugf _ a | .infof _ a | .warnf _ a | .errorf _ a | .fatalf _ a => a

namespace Structured

/-- Go source: the Logger struct of log.go (the mutex is not part of the
pure state; the sink is kept as an optional writer identity, none for the
Go nil writer of the zero value). -/
structure Logger where
  w : Option GoWriter
  minLevel : Level
  name : String
  includeCaller : Bool
  stacktrace : Bool
deriving DecidableEq, Repr

/-- Go source: the body of the range-over-args loop of Logger.fmt in log.go:
append the argument to Fields; then, when the level is ERROR or FATAL and
the stacktrace flag is set, overwrite Stacktrace with the decorated trace.
The condition and the decorated trace do not depend on the loop state, so
they are passed in once. -/
def fmtStep (cond : Bool) (note : String) (en : entry) (arg : JValue) : entry :=
  let en' := { en with Fields := en.Fields ++ [arg] }
  if cond then { en' with Stacktrace := note } else en'

/-- Go source: func (l *Logger) fmt(level Level, format string, args ...any)
entry, from log.go.  ts stands for time.Now().Format(...) and stack for
string(debug.Stack()). -/
def Logger.fmt (l : Logger) (level : Level) (format : String) (args : List JValue)
    (ts stack : String) : entry :=
  args.foldl
    (fmtStep ((level == ERROR || level == FATAL) && l.stacktrace)
      (" " ++ colorFromLevel level ++ "stracktrace " ++ colorReset ++ stack))
    { Name := l.name, Level := level.string, Caller := "", Message := format,
      Fields := [], Stacktrace := "", Timestamp := ts }

/-- Go source: func (l *Logger) logMsg(level Level, format string,
args ...any), from log.go.  On marshal failure the diagnostic Fprintf is a
first sink write and entrybytes stays nil, so the following Write call
writes just the newline; werr is the error returned by that Write call
(none when it succeeds), and a failing Write triggers the trailing
diagnostic Fprintf. -/
def Logger.logMsg (l : Logger) (level : Level) (format : String)
    (args : List JValue) (ts stack : String) (werr : Option String) : LogResult :=
  if l.minLevel > level then ⟨[], false⟩
  else
    let logEntry := l.fmt level format args ts stack
    match jsonMarshal logEntry with
    | .ok entrybytes => ⟨[entrybytes ++ "\n"] ++ writeDiag werr, level == FATAL⟩
    | .error e =>
        ⟨["failed to marshal message " ++ e ++ " original message " ++ format, "\n"]
          ++ writeDiag werr, level == FATAL⟩

/-- Go source: func (l *Logger) Debug(format string). -/
def Logger.Debug (l : Logger) (format : String) (ts stack : String)
    (werr : Option String) : LogResult :=
  l.logMsg DEBUG "%s" [.str format] ts stack werr

/-- Go source: func (l *Logger) Debugf(format string, args ...any). -/
def Logger.Debugf (l : Logger) (format : String) (args : List JValue)
    (ts stack : String) (werr : Option String) : LogResult :=
  l.logMsg DEBUG format args ts stack werr

/-- Go source: func (l *Logger) Info(format string). -/
def Logger.Info (l : Logger) (format : String) (ts stack : String)
    (werr : Option String) : LogResult :=
  l.logMsg INFO "%s" [.str format] ts stack werr

/-- Go source: func (l *Logger) Infof(format string, args ...any). -/
def Logger.Infof (l : Logger) (format : String) (args : List JValue)
    (ts stack : String) (werr : Option String) : LogResult :=
  l.logMsg INFO format args ts stack werr

/-- Go source: func (l *Logger) Warn(format string). -/
def Logger.Warn (l : Logger) (format : String) (ts stack : String)
    (werr : Option String) : LogResult :=
  l.logMsg WARN "%s" [.str format] ts stack werr

/-- Go source: func (l *Logger) Warnf(format string, args ...any). -/
def Logger.Warnf (l : Logger) (format : String) (args : List JValue)
    (ts stack : String) (werr : Option String) : LogResult :=
  l.logMsg WARN format args ts stack werr

/-- Go source: func (l *Logger) Error(format string). -/
def Logger.Error (l : Logger) (format : String) (ts stack : String)
    (werr : Option String) : LogResult :=
  l.logMsg ERROR "%s" [.str format] ts stack werr

/-- Go source: func (l *Logger) Errorf(format string, args ...any). -/
def Logger.Errorf (l : Logger) (format : String) (args : List JValue)
    (ts stack : String) (werr : Option String) : LogResult :=
  l.logMsg ERROR format args ts stack werr

/-- Go source: func (l *Logger) Fatal(format string). -/
def Logger.Fatal (l : Logger) (format : String) (ts stack : String)
    (werr : Option String) : LogResult :=
  l.logMsg FATAL "%s" [.str format] ts stack werr

/-- Go source: func (l *Logger) Fatalf(format string, args ...any). -/
def Logger.Fatalf (l : Logger) (format : String) (args : List JValue)
    (ts stack : String) (werr : Option String) : LogResult :=
  l.logMsg FATAL format args ts stack werr

/-- Dispatch of one public emission call to its method. -/
def emit (l : Logger) (c : EmitCall) (ts stack : String)
    (werr : Option String) : LogResult :=
  match c with
  | .debug f => l.Debug f ts stack werr
  | .debugf f a => l.Debugf f a ts stack werr
  | .info f => l.Info f ts stack werr
  | .infof f a => l.Infof f a ts stack werr
  | .warn f => l.Warn f ts stack werr
  | .warnf f a => l.Warnf f a ts stack werr
  | .error f => l.Error f ts stack werr
  | .errorf f a => l.Errorf f a ts stack werr
  | .fatal f => l.Fatal f ts stack werr
  | .fatalf f a => l.Fatalf f a ts stack werr

/-- Go source: type LoggerOption func(*Logger), defunctionalized to the five
published option constructors of log.go. -/
inductive LoggerOption where
  | withWriter (w : GoWriter)
  | withName (n : String)
  | withLevel (level : String)
  | withCaller (includeCaller : Bool)
  | withStacktrace (stacktrace : Bool)
deriving DecidableEq, Repr

/-- Go source: the closure bodies of WithWriter, WithName, WithLevel,
WithCaller and WithStacktrace: each assigns exactly one Logger field. -/
def applyOption (l : Logger) : LoggerOption → Logger
  | .withWriter w => { l with w := some w }
  | .withName n => { l with name := n }
  | .withLevel level => { l with minLevel := levelFromString level }
  | .withCaller b => { l with includeCaller := b }
  | .withStacktrace b => { l with stacktrace := b }

/-- Which field an option writes; two options of the same kind target the
same field. -/
def LoggerOption.kind : LoggerOption → Nat
  | .withWriter _ => 0
  | .withName _ => 1
  | .withLevel _ => 2
  | .withCaller _ => 3
  | .withStacktrace _ => 4

/-- Go source: func New(opts ...LoggerOption) *Logger: the options are
applied in argument order to the zero-valued Logger (nil writer, level 0 =
DEBUG, empty name, false flags). -/
def New (opts : List LoggerOption) : Logger :=
  opts.foldl applyOption
    { w := none, minLevel := DEBUG, name := "", includeCaller := false, stacktrace := false }

end Structured

namespace Plain

/-- Go source: the Logger struct of the plain-text variant (sink, minimum
level and name only). -/
structure Logger where
  w : Option GoWriter
  minLevel : Level
  name : String
deriving DecidableEq, Repr

/-- Go source: func (l *Logger) fmt(level Level, format string,
args ...interface) string, from the plain-text variant.  ts stands for
time.Now().Format(...) and stack for string(debug.Stack()). -/
def Logger.fmt (l : Logger) (level : Level) (format : String) (args : List JValue)
    (ts stack : String) : String :=
  let msg := sprintf format args
  let clr : color :=
    if l.w = some GoWriter.stdout ∨ l.w = some GoWriter.stdin then colorFromLevel level
    else ""
  let lmsg := clr ++ ts ++ " [" ++ colorFromLevel level ++ level.string ++ colorReset
    ++ "] " ++ l.name ++ " " ++ msg
  let lmsg :=
    if level == ERROR || level == FATAL then
      lmsg ++ (" " ++ colorFromLevel level ++ "stracktrace " ++ colorReset ++ stack)
    else lmsg
  lmsg ++ "\n"

/-- Go source: func (l *Logger) logMsg of the plain-text variant: level
filter, one Write of the formatted line, diagnostic Fprintf when that Write
fails, os.Exit(1) on FATAL. -/
def Logger.logMsg (l : Logger) (level : Level) (format : String)
    (args : List JValue) (ts stack : String) (werr : Option String) : LogResult :=
  if l.minLevel > level then ⟨[], false⟩
  else
    let fmsg := l.fmt level format args ts stack
    ⟨[fmsg] ++ writeDiag werr, level == FATAL⟩

/-- Go source: func (l *Logger) Debug(format string), plain variant. -/
def Logger.Debug (l : Logger) (format : String) (ts stack : String)
    (werr : Option String) : LogResult :=
  l.logMsg DEBUG "%s" [.str format] ts stack werr

/-- Go source: func (l *Logger) Debugf, plain variant. -/
def Logger.Debugf (l : Logger) (format : String) (args : List JValue)
    (ts stack : String) (werr : Option String) : LogResult :=
  l.logMsg DEBUG format args ts stack werr

/-- Go source: func (l *Logger) Info(format string), plain variant. -/
def Logger.Info (l : Logger) (format : String) (ts stack : String)
    (werr : Option String) : LogResult :=
  l.logMsg INFO "%s" [.str format] ts stack werr

/-- Go source: func (l *Logger) Infof, plain variant. -/
def Logger.Infof (l : Logger) (format : String) (args : List JValue)
    (ts stack : String) (werr : Option String) : LogResult :=
  l.logMsg INFO format args ts stack werr

/-- Go source: func (l *Logger) Warn(format string), plain variant. -/
def Logger.Warn (l : Logger) (format : String) (ts stack : String)
    (werr : Option String) : LogResult :=
  l.logMsg WARN "%s" [.str format] ts stack werr

/-- Go source: func (l *Logger) Warnf, plain variant. -/
def Logger.Warnf (l : Logger) (format : String) (args : List JValue)
    (ts stack : String) (werr : Option String) : LogResult :=
  l.logMsg WARN format args ts stack werr

/-- Go source: func (l *Logger) Error(format string), plain variant. -/
def Logger.Error (l : Logger) (format : String) (ts stack : String)
    (werr : Option String) : LogResult :=
  l.logMsg ERROR "%s" [.str format] ts stack werr

/-- Go source: func (l *Logger) Errorf, plain variant. -/
def Logger.Errorf (l : Logger) (format : String) (args : List JValue)
    (ts stack : String) (werr : Option String) : LogResult :=
  l.logMsg ERROR format args ts stack werr

/-- Go source: func (l *Logger) Fatal(format string), plain variant. -/
def Logger.Fatal (l : Logger) (format : String) (ts stack : String)
    (werr : Option String) : LogResult :=
  l.logMsg FATAL "%s" [.str format] ts stack werr

/-- Go source: func (l *Logger) Fatalf, plain variant. -/
def Logger.Fatalf (l : Logger) (format : String) (args : List JValue)
    (ts stack : String) (werr : Option String) : LogResult :=
  l.logMsg FATAL format args ts stack werr

/-- Dispatch of one public emission call to its method, plain variant. -/
def emit (l : Logger) (c : EmitCall) (ts stack : String)
    (werr : Option String) : LogResult :=
  match c with
  | .debug f => l.Debug f ts stack werr
  | .debugf f a => l.Debugf f a ts stack werr
  | .info f => l.Info f ts stack werr
  | .infof f a => l.Infof f a ts stack werr
  | .warn f => l.Warn f ts stack werr
  | .warnf f a => l.Warnf f a ts stack werr
  | .error f => l.Error f ts stack werr
  | .errorf f a => l.Errorf f a ts stack werr
  | .fatal f => l.Fatal f ts stack werr
  | .fatalf f a => l.Fatalf f a ts stack werr

/-- Everything the plain-text line puts before the rendered message. -/
def pre (l : Logger) (level : Level) (ts : String) : String :=
  (if l.w = some GoWriter.stdout ∨ l.w = some GoWriter.stdin then colorFromLevel level
   else "") ++ ts ++ " [" ++ colorFromLevel level ++ level.string ++ colorReset
    ++ "] " ++ l.name ++ " "

/-- Everything the plain-text line puts after the rendered message. -/
def suf (level : Level) (stack : String) : String :=
  (if level == ERROR || level == FATAL then
    " " ++ colorFromLevel level ++ "stracktrace " ++ colorReset ++ stack
   else "") ++ "\n"

end Plain

/-! Helper lemmas shared by the claim theorems. -/

/-- A string extended with a newline is never empty. -/
theorem append_newline_ne_empty (s : String) : s ++ "\n" ≠ "" := by
  intro h
  have hl := congrArg String.length h
  rw [String.length_append] at hl
  have h1 : ("\n" : String).length = 1 := rfl
  have h0 : ("" : String).length = 0 := rfl
  omega

namespace Structured

/-- Unrolling the fields/stacktrace loop of Logger.fmt: the fields are
appended in order and the stacktrace is the note exactly when the condition
holds and at least one argument was traversed. -/
theorem foldl_fmtStep (cond : Bool) (note : String) (args : List JValue) (en : entry) :
    args.foldl (fmtStep cond note) en =
      ⟨en.Name, en.Level, en.Caller, en.Message, en.Fields ++ args,
        if args.isEmpty then en.Stacktrace else if cond then note else en.Stacktrace,
        en.Timestamp⟩ := by
  induction args generalizing en with
  | nil => simp
  | cons a as ih =>
    rw [List.foldl_cons, ih]
    cases cond <;> simp [fmtStep]

/-- Closed form of Logger.fmt from log.go. -/
theorem fmt_eq (l : Logger) (level : Level) (format : String) (args : List JValue)
    (ts stack : String) :
    l.fmt level format args ts stack =
      ⟨l.name, level.string, "", format, args,
        if args.isEmpty then ""
        else if (level == ERROR || level == FATAL) && l.stacktrace then
          " " ++ colorFromLevel level ++ "stracktrace " ++ colorReset ++ stack
        else "",
        ts⟩ := by
  unfold Logger.fmt
  rw [foldl_fmtStep]
  simp

/-- Behaviour of logMsg once the level filter passes: one record write when
the entry marshals, and the fallback diagnostic plus the lone newline when
it does not. -/
theorem logMsg_pass (l : Logger) (level : Level) (format : String)
    (args : List JValue) (ts stack : String) (werr : Option String)
    (h : ¬ l.minLevel > level) :
    l.logMsg level format args ts stack werr =
      if args.all JValue.serializable then
        ⟨[renderObj (entryKVs (l.fmt level format args ts stack)) ++ "\n"]
          ++ writeDiag werr, level == FATAL⟩
      else
        ⟨["failed to marshal message json: unsupported type original message " ++ format,
          "\n"] ++ writeDiag werr, level == FATAL⟩ := by
  have hf : (l.fmt level format args ts stack).Fields = args := by rw [fmt_eq]
  unfold Logger.logMsg jsonMarshal
  rw [if_neg h]
  simp only [hf]
  by_cases hs : args.all JValue.serializable <;> simp [hs]

/-- logMsg with a filtered level does nothing. -/
theorem logMsg_filtered (l : Logger) (level : Level) (format : String)
    (args : List JValue) (ts stack : String) (werr : Option String)
    (h : l.minLevel > level) :
    l.logMsg level format args ts stack werr = ⟨[], false⟩ := by
  unfold Logger.logMsg
  rw [if_pos h]

/-- Every public method is logMsg at its level, format and argument list. -/
theorem emit_eq (l : Logger) (c : EmitCall) (ts stack : String) (werr : Option String) :
    emit l c ts stack werr = l.logMsg c.level c.goFormat c.args ts stack werr := by
  cases c <;> rfl

end Structured

namespace Plain

/-- The plain-text line is the rendered message bracketed by pre and suf. -/
theorem fmt_decomp (l : Logger) (level : Level) (format : String)
    (args : List JValue) (ts stack : String) :
    l.fmt level format args ts stack = pre l level ts ++ sprintf format args ++ suf level stack := by
  unfold Logger.fmt pre suf
  by_cases hw : l.w = some GoWriter.stdout ∨ l.w = some GoWriter.stdin <;>
    cases hb : (level == ERROR || level == FATAL) <;>
      simp [hw, hb, String.append_assoc]

/-- Behaviour of the plain logMsg once the level filter passes. -/
theorem plain_logMsg_pass (l : Logger) (level : Level) (format : String)
    (args : List JValue) (ts stack : String) (werr : Option String)
    (h : ¬ l.minLevel > level) :
    l.logMsg level format args ts stack werr =
      ⟨[l.fmt level format args ts stack] ++ writeDiag werr, level == FATAL⟩ := by
  unfold Logger.logMsg
  rw [if_neg h]

/-- The plain logMsg with a filtered level does nothing. -/
theorem plain_logMsg_filtered (l : Logger) (level : Level) (format : String)
    (args : List JValue) (ts stack : String) (werr : Option String)
    (h : l.minLevel > level) :
    l.logMsg level format args ts stack werr = ⟨[], false⟩ := by
  unfold Logger.logMsg
  rw [if_pos h]

/-- Every public method of the plain variant is logMsg at its level, format
and argument list. -/
theorem plain_emit_eq (l : Logger) (c : EmitCall) (ts stack : String) (werr : Option String) :
    emit l c ts stack werr = l.logMsg c.level c.goFormat c.args ts stack werr := by
  cases c <;> rfl

/-- The plain-text line always ends in the trailing newline, hence is
non-empty. -/
theorem fmt_ne_empty (l : Logger) (level : Level) (format : String)
    (args : List JValue) (ts stack : String) :
    l.fmt level format args ts stack ≠ "" := by
  unfold Logger.fmt
  cases hb : (level == ERROR || level == FATAL) <;>
    simp [hb] <;> apply append_newline_ne_empty

end Plain

/-- Rendering a string through the lone s verb returns it verbatim: no
argument substitution happens and verbs inside the argument are not
scanned. -/
theorem sprintf_s_literal (s : String) : sprintf "%s" [JValue.str s] = s := by
  show sprintfAux ['%', 's'] [JValue.str s] = s
  show verbRender 's' (JValue.str s) ++ sprintfAux [] [] = s
  show s ++ "" = s
  exact String.append_empty s

/-- levelFromString only ever produces the five declared levels, so its
result sits between DEBUG and FATAL. -/
theorem levelFromString_bound (s : String) :
    DEBUG ≤ levelFromString s ∧ levelFromString s ≤ FATAL := by
  unfold levelFromString
  split
  · decide
  · split
    · decide
    · split
      · decide
      · split <;> decide

namespace Structured

/-- All constructible loggers keep minLevel between DEBUG and FATAL. -/
theorem New_minLevel_bound (opts : List LoggerOption) :
    DEBUG ≤ (New opts).minLevel ∧ (New opts).minLevel ≤ FATAL := by
  have key : ∀ (os : List LoggerOption) (l : Logger),
      DEBUG ≤ l.minLevel → l.minLevel ≤ FATAL →
      DEBUG ≤ (os.foldl applyOption l).minLevel ∧ (os.foldl applyOption l).minLevel ≤ FATAL := by
    intro os
    induction os with
    | nil => intro l h1 h2; exact ⟨h1, h2⟩
    | cons o os ih =>
      intro l h1 h2
      rw [List.foldl_cons]
      cases o with
      | withLevel s =>
          exact ih _ (levelFromString_bound s).1 (levelFromString_bound s).2
      | withWriter w => exact ih _ h1 h2
      | withName n => exact ih _ h1 h2
      | withCaller b => exact ih _ h1 h2
      | withStacktrace b => exact ih _ h1 h2
  exact key opts _ (by decide) (by decide)

/-- Applying two options of the same kind in a row: the second one wins. -/
theorem applyOption_overwrite (l : Logger) (o1 o2 : LoggerOption)
    (h : o1.kind = o2.kind) :
    applyOption (applyOption l o1) o2 = applyOption l o2 := by
  cases o1 <;> cases o2 <;> first | rfl | simp [LoggerOption.kind] at h

/-- Options of different kinds write disjoint fields, so they commute. -/
theorem applyOption_comm (l : Logger) (o1 o2 : LoggerOption)
    (h : o1.kind ≠ o2.kind) :
    applyOption (applyOption l o1) o2 = applyOption (applyOption l o2) o1 := by
  cases o1 <;> cases o2 <;> first | rfl | exact absurd rfl h

/-- When a later option of the same kind follows, an earlier application is
irrelevant to the final fold. -/
theorem foldl_dup_kind (o1 o2 : LoggerOption) (h : o1.kind = o2.kind) :
    ∀ (l2 l3 : List LoggerOption) (l : Logger),
      (l2 ++ o2 :: l3).foldl applyOption (applyOption l o1) =
        (l2 ++ o2 :: l3).foldl applyOption l := by
  intro l2
  induction l2 with
  | nil =>
      intro l3 l
      simp only [List.nil_append, List.foldl_cons]
      rw [applyOption_overwrite l o1 o2 h]
  | cons o os ih =>
      intro l3 l
      simp only [List.cons_append, List.foldl_cons]
      by_cases hk : o1.kind = o.kind
      · rw [applyOption_overwrite l o1 o hk]
      · rw [applyOption_comm l o1 o hk]
        exact ih l3 (applyOption l o)

end Structured

/-- A record with a non-empty message always carries the msg key. -/
theorem entryKVs_msg_mem (e : entry) (h : ¬ e.Message = "") :
    ("msg", jsonQuote e.Message) ∈ entryKVs e := by
  unfold entryKVs
  rw [if_neg h]
  simp [List.mem_append]

/-- A record with at least one field always carries the fields key. -/
theorem entryKVs_fields_mem (e : entry) (h : ¬ e.Fields = []) :
    ("fields", renderFieldsArr e.Fields) ∈ entryKVs e := by
  unfold entryKVs
  have hb : e.Fields.isEmpty = false := by
    cases hf : e.Fields with
    | nil => exact absurd hf h
    | cons a as => rfl
  rw [hb]
  simp [List.mem_append]

/-- A structured FATAL emission that passes the filter always records the
exit and at least one write attempt, whether or not the entry marshals. -/
theorem logMsg_FATAL_result (l : Structured.Logger) (format : String)
    (args : List JValue) (ts stack : String) (werr : Option String)
    (h : ¬ l.minLevel > FATAL) :
    (l.logMsg FATAL format args ts stack werr).exits = true ∧
      (l.logMsg FATAL format args ts stack werr).writes ≠ [] := by
  rw [Structured.logMsg_pass l FATAL format args ts stack werr h]
  by_cases hs : args.all JValue.serializable <;> simp [hs]

/-- A plain FATAL emission that passes the filter always records the exit
and one write attempt. -/
theorem plain_logMsg_FATAL_result (l : Plain.Logger) (format : String)
    (args : List JValue) (ts stack : String) (werr : Option String)
    (h : ¬ l.minLevel > FATAL) :
    (l.logMsg FATAL format args ts stack werr).exits = true ∧
      (l.logMsg FATAL format args ts stack werr).writes ≠ [] := by
  rw [Plain.plain_logMsg_pass l FATAL format args ts stack werr h]
  simp

/-! Claim theorems. -/

/-- C6: levelFromString is case-insensitive and total: every string that
folds to "info", "warn", "error" or "fatal" maps to INFO, WARN, ERROR or
FATAL respectively, and every other input string maps to DEBUG; no error is
signalled for unknown input. -/
theorem c6_levelFromString_case_insensitive_total :
    (∀ s, goToLower s = "info" → levelFromString s = INFO) ∧
    (∀ s, goToLower s = "warn" → levelFromString s = WARN) ∧
    (∀ s, goToLower s = "error" → levelFromString s = ERROR) ∧
    (∀ s, goToLower s = "fatal" → levelFromString s = FATAL) ∧
    (∀ s, goToLower s ≠ "info" → goToLower s ≠ "warn" → goToLower s ≠ "error" →
      goToLower s ≠ "fatal" → levelFromString s = DEBUG) := by
  refine ⟨?_, ?_, ?_, ?_, ?_⟩
  · intro s h; unfold levelFromString; rw [h]; decide
  · intro s h; unfold levelFromString; rw [h]; decide
  · intro s h; unfold levelFromString; rw [h]; decide
  · intro s h; unfold levelFromString; rw [h]; decide
  · intro s h1 h2 h3 h4; unfold levelFromString
    rw [if_neg h1, if_neg h2, if_neg h3, if_neg h4]

/-- Witness for C6: mixed-case WaRn maps to WARN, bogus maps to DEBUG. -/
theorem c6_witness : levelFromString "WaRn" = WARN ∧ levelFromString "bogus" = DEBUG :=
  ⟨c6_levelFromString_case_insensitive_total.2.1 "WaRn" (by decide),
   c6_levelFromString_case_insensitive_total.2.2.2.2 "bogus"
     (by decide) (by decide) (by decide) (by decide)⟩

/-- C8: New applies its options to a freshly zero-valued Logger in argument
order with last-write-wins semantics, and with no options the Logger has an
absent sink, empty name, threshold DEBUG, and both feature flags false. -/
theorem c8_new_applies_options_in_order :
    Structured.New [] =
      { w := none, minLevel := DEBUG, name := "", includeCaller := false,
        stacktrace := false } ∧
    (∀ (opts : List Structured.LoggerOption) (o : Structured.LoggerOption),
      Structured.New (opts ++ [o]) = Structured.applyOption (Structured.New opts) o) ∧
    (∀ (l1 : List Structured.LoggerOption) (o1 : Structured.LoggerOption)
        (l2 : List Structured.LoggerOption) (o2 : Structured.LoggerOption)
        (l3 : List Structured.LoggerOption),
      o1.kind = o2.kind →
      Structured.New (l1 ++ o1 :: (l2 ++ o2 :: l3)) =
        Structured.New (l1 ++ (l2 ++ o2 :: l3))) := by
  refine ⟨rfl, ?_, ?_⟩
  · intro opts o
    unfold Structured.New
    rw [List.foldl_append]
    rfl
  · intro l1 o1 l2 o2 l3 h
    unfold Structured.New
    rw [List.foldl_append, List.foldl_append, List.foldl_cons]
    exact Structured.foldl_dup_kind o1 o2 h l2 l3 _

/-- Witness for C8: a later WithName overrides an earlier one. -/
theorem c8_witness :
    Structured.New ([] ++ Structured.LoggerOption.withName "a" ::
        ([] ++ Structured.LoggerOption.withName "b" :: [])) =
      Structured.New ([] ++ ([] ++ Structured.LoggerOption.withName "b" :: [])) :=
  c8_new_applies_options_in_order.2.2 [] (.withName "a") [] (.withName "b") [] rfl

/-- C10: for every Logger built by New, minLevel lies between DEBUG and
FATAL inclusive, so FATAL emissions are never filtered: every Fatal or
Fatalf call reaches the write attempt and terminates the process. -/
theorem c10_min_level_bounded_fatal_never_filtered :
    ∀ opts : List Structured.LoggerOption,
      DEBUG ≤ (Structured.New opts).minLevel ∧
      (Structured.New opts).minLevel ≤ FATAL ∧
      ¬ (Structured.New opts).minLevel > FATAL ∧
      (∀ (s ts stack : String) (args : List JValue) (werr : Option String),
        ((Structured.New opts).Fatal s ts stack werr).exits = true ∧
        ((Structured.New opts).Fatal s ts stack werr).writes ≠ [] ∧
        ((Structured.New opts).Fatalf s args ts stack werr).exits = true ∧
        ((Structured.New opts).Fatalf s args ts stack werr).writes ≠ []) := by
  intro opts
  obtain ⟨h1, h2⟩ := Structured.New_minLevel_bound opts
  have hnf : ¬ (Structured.New opts).minLevel > FATAL := not_lt.mpr h2
  refine ⟨h1, h2, hnf, ?_⟩
  intro s ts stack args werr
  obtain ⟨e1, w1⟩ := logMsg_FATAL_result (Structured.New opts) "%s" [JValue.str s] ts stack werr hnf
  obtain ⟨e2, w2⟩ := logMsg_FATAL_result (Structured.New opts) s args ts stack werr hnf
  exact ⟨e1, w1, e2, w2⟩

/-- C1 (amended): for every logger and every one of the ten public emission
methods, a filtered call (configured minimum strictly above the requested
level) has no observable effect at all — no write, no exit — and an
unfiltered call whose payload serializes and whose sink write succeeds
produces exactly one non-empty write.  Both the structured and the plain
rendering comply. -/
theorem c1_filter_iff_exactly_one_nonempty_write :
    (∀ (l : Structured.Logger) (c : EmitCall) (ts stack : String),
      (∀ a ∈ c.args, a.serializable = true) →
      (l.minLevel > c.level → Structured.emit l c ts stack none = ⟨[], false⟩) ∧
      (¬ l.minLevel > c.level →
        ∃ w, (Structured.emit l c ts stack none).writes = [w] ∧ w ≠ "")) ∧
    (∀ (l : Plain.Logger) (c : EmitCall) (ts stack : String),
      (l.minLevel > c.level → Plain.emit l c ts stack none = ⟨[], false⟩) ∧
      (¬ l.minLevel > c.level →
        ∃ w, (Plain.emit l c ts stack none).writes = [w] ∧ w ≠ "")) := by
  constructor
  · intro l c ts stack hser
    rw [Structured.emit_eq]
    constructor
    · intro h
      exact Structured.logMsg_filtered _ _ _ _ _ _ _ h
    · intro h
      rw [Structured.logMsg_pass _ _ _ _ _ _ _ h]
      have hall : c.args.all JValue.serializable = true := by
        rw [List.all_eq_true]
        intro a ha
        exact hser a ha
      rw [if_pos hall]
      exact ⟨_, rfl, append_newline_ne_empty _⟩
  · intro l c ts stack
    rw [Plain.plain_emit_eq]
    constructor
    · intro h
      exact Plain.plain_logMsg_filtered _ _ _ _ _ _ _ h
    · intro h
      rw [Plain.plain_logMsg_pass _ _ _ _ _ _ _ h]
      exact ⟨_, rfl, Plain.fmt_ne_empty _ _ _ _ _ _⟩

/-- Witness for C1: a filtered Debug call on an INFO-threshold logger does
nothing; an unfiltered Infof call and an unfiltered plain Warn call each
produce exactly one non-empty write. -/
theorem c1_witness :
    Structured.emit ⟨none, INFO, "unit_test", false, false⟩ (EmitCall.debug "x")
        "t" "g" none = ⟨[], false⟩ ∧
    (∃ w, (Structured.emit ⟨none, INFO, "unit_test", false, false⟩
        (EmitCall.infof "%d" [JValue.int 1]) "t" "g" none).writes = [w] ∧ w ≠ "") ∧
    (∃ w, (Plain.emit ⟨none, WARN, "unit_test"⟩ (EmitCall.warn "hello")
        "t" "g" none).writes = [w] ∧ w ≠ "") := by
  refine ⟨?_, ?_, ?_⟩
  · exact (c1_filter_iff_exactly_one_nonempty_write.1 _ (EmitCall.debug "x")
      "t" "g" (by decide)).1 (by decide)
  · exact (c1_filter_iff_exactly_one_nonempty_write.1 _ (EmitCall.infof "%d" [JValue.int 1])
      "t" "g" (by decide)).2 (by decide)
  · exact (c1_filter_iff_exactly_one_nonempty_write.2 _ (EmitCall.warn "hello")
      "t" "g").2 (by decide)

/-- C1 counterexample: a structured Infof call carrying an unserializable
argument passes the DEBUG filter yet hands the sink two writes — the
fallback marshal diagnostic and the lone newline — so the call does not
produce exactly one write. -/
theorem c1_counterexample :
    ¬ (⟨none, DEBUG, "", false, false⟩ : Structured.Logger).minLevel >
        (EmitCall.infof "%v" [JValue.chan 0]).level ∧
    (Structured.emit ⟨none, DEBUG, "", false, false⟩
        (EmitCall.infof "%v" [JValue.chan 0]) "t" "g" none).writes.length = 2 := by
  decide

/-- C2: every Fatal or Fatalf call that passes the level filter records the
process exit, and it happens after the write attempt, unconditionally, even
when the sink write failed; no emission at any other level exits.  Both
renderings comply. -/
theorem c2_fatal_exits_after_write_attempt :
    (∀ (l : Structured.Logger) (s ts stack : String) (args : List JValue)
        (werr : Option String),
      ¬ l.minLevel > FATAL →
      ((l.Fatal s ts stack werr).exits = true ∧ (l.Fatal s ts stack werr).writes ≠ []) ∧
      ((l.Fatalf s args ts stack werr).exits = true ∧
        (l.Fatalf s args ts stack werr).writes ≠ [])) ∧
    (∀ (l : Structured.Logger) (c : EmitCall) (ts stack : String) (werr : Option String),
      c.level ≠ FATAL → (Structured.emit l c ts stack werr).exits = false) ∧
    (∀ (l : Plain.Logger) (s ts stack : String) (args : List JValue)
        (werr : Option String),
      ¬ l.minLevel > FATAL →
      ((l.Fatal s ts stack werr).exits = true ∧ (l.Fatal s ts stack werr).writes ≠ []) ∧
      ((l.Fatalf s args ts stack werr).exits = true ∧
        (l.Fatalf s args ts stack werr).writes ≠ [])) ∧
    (∀ (l : Plain.Logger) (c : EmitCall) (ts stack : String) (werr : Option String),
      c.level ≠ FATAL → (Plain.emit l c ts stack werr).exits = false) := by
  refine ⟨?_, ?_, ?_, ?_⟩
  · intro l s ts stack args werr h
    exact ⟨logMsg_FATAL_result l "%s" [JValue.str s] ts stack werr h,
      logMsg_FATAL_result l s args ts stack werr h⟩
  · intro l c ts stack werr hne
    rw [Structured.emit_eq]
    by_cases h : l.minLevel > c.level
    · rw [Structured.logMsg_filtered _ _ _ _ _ _ _ h]
    · rw [Structured.logMsg_pass _ _ _ _ _ _ _ h]
      by_cases hs : c.args.all JValue.serializable <;>
        simp [hs, beq_eq_false_iff_ne, hne]
  · intro l s ts stack args werr h
    exact ⟨plain_logMsg_FATAL_result l "%s" [JValue.str s] ts stack werr h,
      plain_logMsg_FATAL_result l s args ts stack werr h⟩
  · intro l c ts stack werr hne
    rw [Plain.plain_emit_eq]
    by_cases h : l.minLevel > c.level
    · rw [Plain.plain_logMsg_filtered _ _ _ _ _ _ _ h]
    · rw [Plain.plain_logMsg_pass _ _ _ _ _ _ _ h]
      simp [beq_eq_false_iff_ne, hne]

/-- Witness for C2: a Fatal call on an unfiltered logger exits even though
the sink write failed, and an Info call never exits. -/
theorem c2_witness :
    ((⟨none, DEBUG, "", false, false⟩ : Structured.Logger).Fatal "bye" "t" "g"
        (some "broken pipe")).exits = true ∧
    (Structured.emit ⟨none, DEBUG, "", false, false⟩ (EmitCall.info "x")
        "t" "g" none).exits = false := by
  constructor
  · exact ((c2_fatal_exits_after_write_attempt.1 _ "bye" "t" "g" [] (some "broken pipe")
      (by decide)).1).1
  · exact c2_fatal_exits_after_write_attempt.2.1 _ (EmitCall.info "x") "t" "g" none (by decide)

/-- C3 (code bug): with the stacktrace feature enabled, a structured ERROR
emission with zero variadic arguments — Errorf with no arguments — leaves
the record's Stacktrace empty and the emitted object without a stacktrace
key, because the assignment sits inside the range-over-args loop; the same
call with one argument does attach a non-empty trace. -/
theorem c3_error_zero_args_drops_stacktrace :
    ((⟨none, DEBUG, "", false, true⟩ : Structured.Logger).fmt ERROR "boom" []
        "2024-01-02 03:04:05" "goroutine 1 [running]:").Stacktrace = "" ∧
    "stacktrace" ∉ (entryKVs ((⟨none, DEBUG, "", false, true⟩ : Structured.Logger).fmt
        ERROR "boom" [] "2024-01-02 03:04:05" "goroutine 1 [running]:")).map Prod.fst ∧
    ((⟨none, DEBUG, "", false, true⟩ : Structured.Logger).fmt ERROR "%s"
        [JValue.str "boom"] "2024-01-02 03:04:05"
        "goroutine 1 [running]:").Stacktrace ≠ "" := by
  decide

/-- C4: in the structured rendering a serialization failure is recovered
locally: the sink receives a fallback diagnostic naming the failure and the
original template, then only the newline of the nil entry bytes; nothing of
the failed record is written, there is no retry, and no error reaches the
caller. -/
theorem c4_marshal_failure_fallback :
    ∀ (l : Structured.Logger) (level : Level) (format : String)
      (args : List JValue) (ts stack : String),
      ¬ l.minLevel > level →
      args.all JValue.serializable = false →
      (l.logMsg level format args ts stack none).writes =
        ["failed to marshal message json: unsupported type original message " ++ format,
          "\n"] := by
  intro l level format args ts stack h hs
  rw [Structured.logMsg_pass _ _ _ _ _ _ _ h, if_neg (by simp [hs])]
  simp [writeDiag]

/-- Witness for C4: serializing a channel argument fails and yields exactly
the fallback diagnostic plus the lone newline. -/
theorem c4_witness :
    ((⟨none, DEBUG, "", false, false⟩ : Structured.Logger).logMsg INFO "tmpl"
        [JValue.chan 0] "t" "g" none).writes =
      ["failed to marshal message json: unsupported type original message " ++ "tmpl",
        "\n"] :=
  c4_marshal_failure_fallback ⟨none, DEBUG, "", false, false⟩ INFO "tmpl"
    [JValue.chan 0] "t" "g" (by decide) (by decide)

/-- C5 counterexample: an Infof call with an empty template on an unnamed
logger emits a JSON object whose keys are exactly level and timestamp; the
msg and name fields, which the claim says are always present, are omitted
because their tags carry omitempty. -/
theorem c5_counterexample :
    (Structured.Logger.Infof ⟨none, DEBUG, "", false, false⟩ "" []
        "2024-01-02 03:04:05" "" none).writes =
      ["\x7b\"level\":\"INFO\",\"timestamp\":\"2024-01-02 03:04:05\"\x7d\n"] ∧
    (entryKVs ((⟨none, DEBUG, "", false, false⟩ : Structured.Logger).fmt INFO "" []
        "2024-01-02 03:04:05" "")).map Prod.fst = ["level", "timestamp"] ∧
    "msg" ∉ (entryKVs ((⟨none, DEBUG, "", false, false⟩ : Structured.Logger).fmt INFO "" []
        "2024-01-02 03:04:05" "")).map Prod.fst ∧
    "name" ∉ (entryKVs ((⟨none, DEBUG, "", false, false⟩ : Structured.Logger).fmt INFO "" []
        "2024-01-02 03:04:05" "")).map Prod.fst := by
  decide

/-- C5 (amended): every structured emission that passes the filter and
marshals writes a single JSON object followed by a newline whose keys are
drawn, in order, from name, level, caller, msg, fields, stacktrace,
timestamp; level and timestamp are always present while name, caller, msg,
fields and stacktrace are omitted when empty (caller is always empty in
this code); fields holds the variadic arguments in call order, serialized
as native values, and msg holds the template itself. -/
theorem c5_schema_amended :
    ∀ (l : Structured.Logger) (level : Level) (format : String) (args : List JValue)
      (ts stack : String),
      args.all JValue.serializable = true →
      ¬ l.minLevel > level →
      (l.logMsg level format args ts stack none).writes =
        [renderObj (entryKVs (l.fmt level format args ts stack)) ++ "\n"] ∧
      (l.fmt level format args ts stack).Message = format ∧
      (l.fmt level format args ts stack).Fields = args ∧
      (l.fmt level format args ts stack).Level = level.string ∧
      (l.fmt level format args ts stack).Name = l.name ∧
      (l.fmt level format args ts stack).Caller = "" ∧
      (l.fmt level format args ts stack).Timestamp = ts ∧
      ((entryKVs (l.fmt level format args ts stack)).map Prod.fst =
        (if l.name = "" then [] else ["name"]) ++ ["level"] ++
        (if format = "" then [] else ["msg"]) ++
        (if args.isEmpty then [] else ["fields"]) ++
        (if (l.fmt level format args ts stack).Stacktrace = "" then []
          else ["stacktrace"]) ++ ["timestamp"]) ∧
      (args ≠ [] →
        ("fields", renderFieldsArr args) ∈ entryKVs (l.fmt level format args ts stack)) := by
  intro l level format args ts stack hs h
  have he := Structured.fmt_eq l level format args ts stack
  refine ⟨?_, by rw [he], by rw [he], by rw [he], by rw [he], by rw [he], by rw [he], ?_, ?_⟩
  · rw [Structured.logMsg_pass _ _ _ _ _ _ _ h, if_pos hs]
    rfl
  · rw [he]
    simp [entryKVs, apply_ite (List.map (Prod.fst (α := String) (β := String)))]
  · intro hne
    have hfld : (l.fmt level format args ts stack).Fields = args := by rw [he]
    have h2 := entryKVs_fields_mem (l.fmt level format args ts stack)
      (by rw [hfld]; exact hne)
    rw [hfld] at h2
    exact h2

/-- Witness for C5 (amended): a concrete INFO emission writes the single
marshalled object plus newline. -/
theorem c5_witness :
    ((⟨none, DEBUG, "n", false, false⟩ : Structured.Logger).logMsg INFO "hello"
        [JValue.int 7] "t" "g" none).writes =
      [renderObj (entryKVs ((⟨none, DEBUG, "n", false, false⟩ : Structured.Logger).fmt
        INFO "hello" [JValue.int 7] "t" "g")) ++ "\n"] :=
  (c5_schema_amended ⟨none, DEBUG, "n", false, false⟩ INFO "hello" [JValue.int 7]
    "t" "g" (by decide) (by decide)).1

/-- C7: in the plain-text rendering the plain methods forward their message
literally — the rendered line contains the supplied string verbatim, with
no argument substitution even when the string holds printf verbs — while
the f-suffixed methods substitute their arguments per printf rules. -/
theorem c7_plain_literal_f_substitutes :
    (∀ (l : Plain.Logger) (lvl : Level) (s ts stack : String),
      Plain.Logger.fmt l lvl "%s" [JValue.str s] ts stack =
        Plain.pre l lvl ts ++ s ++ Plain.suf lvl stack) ∧
    (∀ (l : Plain.Logger) (lvl : Level) (f : String) (args : List JValue)
        (ts stack : String),
      Plain.Logger.fmt l lvl f args ts stack =
        Plain.pre l lvl ts ++ sprintf f args ++ Plain.suf lvl stack) ∧
    (∀ (l : Plain.Logger) (s ts stack : String) (werr : Option String),
      ¬ l.minLevel > INFO →
      (l.Info s ts stack werr).writes =
        [Plain.pre l INFO ts ++ s ++ Plain.suf INFO stack] ++ writeDiag werr) ∧
    (∀ (l : Plain.Logger) (f : String) (args : List JValue) (ts stack : String)
        (werr : Option String),
      ¬ l.minLevel > INFO →
      (l.Infof f args ts stack werr).writes =
        [Plain.pre l INFO ts ++ sprintf f args ++ Plain.suf INFO stack]
          ++ writeDiag werr) := by
  refine ⟨?_, ?_, ?_, ?_⟩
  · intro l lvl s ts stack
    rw [Plain.fmt_decomp, sprintf_s_literal]
  · intro l lvl f args ts stack
    exact Plain.fmt_decomp l lvl f args ts stack
  · intro l s ts stack werr h
    unfold Plain.Logger.Info
    rw [Plain.plain_logMsg_pass _ _ _ _ _ _ _ h]
    show [l.fmt INFO "%s" [JValue.str s] ts stack] ++ writeDiag werr = _
    rw [Plain.fmt_decomp, sprintf_s_literal]
  · intro l f args ts stack werr h
    unfold Plain.Logger.Infof
    rw [Plain.plain_logMsg_pass _ _ _ _ _ _ _ h]
    show [l.fmt INFO f args ts stack] ++ writeDiag werr = _
    rw [Plain.fmt_decomp]

/-- Witness for C7: a message containing a printf verb is rendered verbatim
by the plain Info method. -/
theorem c7_witness :
    ((⟨none, DEBUG, "svc"⟩ : Plain.Logger).Info "100%d" "t" "g" none).writes =
      [Plain.pre ⟨none, DEBUG, "svc"⟩ INFO "t" ++ "100%d" ++ Plain.suf INFO "g"]
        ++ writeDiag none :=
  c7_plain_literal_f_substitutes.2.2.1 ⟨none, DEBUG, "svc"⟩ "100%d" "t" "g" none
    (by decide)

/-- C9: in the structured rendering each plain method hands its message to
logMsg as the single printf argument: the record's msg is the literal verb
string and its fields are the one-element list holding the supplied
message, so the caller's text lands in fields, not in msg. -/
theorem c9_plain_methods_forward_message_as_field :
    (∀ (l : Structured.Logger) (s ts stack : String) (werr : Option String),
      l.Debug s ts stack werr = l.logMsg DEBUG "%s" [JValue.str s] ts stack werr ∧
      l.Info s ts stack werr = l.logMsg INFO "%s" [JValue.str s] ts stack werr ∧
      l.Warn s ts stack werr = l.logMsg WARN "%s" [JValue.str s] ts stack werr ∧
      l.Error s ts stack werr = l.logMsg ERROR "%s" [JValue.str s] ts stack werr ∧
      l.Fatal s ts stack werr = l.logMsg FATAL "%s" [JValue.str s] ts stack werr) ∧
    (∀ (l : Structured.Logger) (lvl : Level) (s ts stack : String),
      (l.fmt lvl "%s" [JValue.str s] ts stack).Message = "%s" ∧
      (l.fmt lvl "%s" [JValue.str s] ts stack).Fields = [JValue.str s] ∧
      ("msg", jsonQuote "%s") ∈ entryKVs (l.fmt lvl "%s" [JValue.str s] ts stack) ∧
      ("fields", renderFieldsArr [JValue.str s]) ∈
        entryKVs (l.fmt lvl "%s" [JValue.str s] ts stack)) := by
  constructor
  · intro l s ts stack werr
    exact ⟨rfl, rfl, rfl, rfl, rfl⟩
  · intro l lvl s ts stack
    have he := Structured.fmt_eq l lvl "%s" [JValue.str s] ts stack
    refine ⟨by rw [he], by rw [he], ?_, ?_⟩
    · have hmsg : (l.fmt lvl "%s" [JValue.str s] ts stack).Message = "%s" := by rw [he]
      have h1 := entryKVs_msg_mem (l.fmt lvl "%s" [JValue.str s] ts stack)
        (by rw [hmsg]; decide)
      rw [hmsg] at h1
      exact h1
    · have hfld : (l.fmt lvl "%s" [JValue.str s] ts stack).Fields = [JValue.str s] := by
        rw [he]
      have h2 := entryKVs_fields_mem (l.fmt lvl "%s" [JValue.str s] ts stack)
        (by rw [hfld]; simp)
      rw [hfld] at h2
      exact h2
